import Mathlib

/-
  Verification of the CRALK PWA recording pipeline.

  The repository holds two relevant revisions of the same script:
    - src/main.js            (the current revision, modelled in namespace V6)
    - src/unnamed/part_002   (an earlier revision, modelled in namespace P2)
  Both scripts share most of their code verbatim; operations whose text is
  identical in the two files (stopRecording, toggleSource, initCamera,
  switchCamera, handleFileSelection, the onended handler) are embedded once,
  at the top level, and the operations whose bodies differ (startRecording,
  startSong, handleStop, the pre-roll timer of part_002) live in the two
  namespaces.

  Modelling conventions:
    - The scripts are single-threaded and event-driven; every handler runs to
      completion, so each JS function becomes one atomic state transformer.
    - Date.now() is an explicit `now : Nat` argument (milliseconds).
    - Nullable JS references become Option; a dereference of null becomes
      Except.error JsError.typeError.
    - Object URLs are numbered by a counter `nextUrl`; `revoked` is a ghost
      log of URL.revokeObjectURL calls, `alerts` a ghost log of alert()
      prompts, `switchLog` a ghost log of (time, source) gain switches made
      while the mixing graph exists: the recorded artifact plays source x
      between consecutive log times.
-/

namespace Cralk

/-- Which logical input the mixing graph routes to the recorder. -/
inductive Source
  | mic
  | song
deriving DecidableEq, Repr

/-- Camera facing mode. -/
inductive Facing
  | user
  | environment
deriving DecidableEq, Repr

/-- User-visible alert prompts raised by the scripts. -/
inductive Alert
  | cameraUnavailable
  | noTrackSelected
deriving DecidableEq, Repr

/-- A JS runtime exception (dereference of a null binding). -/
inductive JsError
  | typeError
deriving DecidableEq, Repr

/-- A device MediaStream: the ids of its hardware tracks. -/
structure Stream where
  tracks : List Nat
deriving DecidableEq, Repr

/-- An entry of the recordingsList metadata array (main.js line 38). -/
structure RecEntry where
  url : Nat
  fileName : String
  duration : Nat
deriving DecidableEq, Repr

/-- A child of the gallery DOM container; `url` is the src of its video. -/
structure Item where
  url : Nat
deriving DecidableEq, Repr

/-- The module-level mutable state of the script, plus ghost observation
logs (`alerts`, `revoked`, `switchLog`, `stoppedTracks`) and the event
bookkeeping (`pendingOnstop` for the queued MediaRecorder onstop callback,
`pendingSwitch` for the part_002 pre-roll setTimeout, `onendedArmed` for
the audioPlayer.onended handler). -/
structure AppState where
  cameraStream : Option Stream := none
  currentFacing : Facing := .environment
  isRecording : Bool := false
  recordedChunks : List Nat := []
  mediaRecorderActive : Option Bool := none
  microGain : Option Nat := none
  songGain : Option Nat := none
  timerInterval : Bool := false
  recordingStartTime : Option Nat := none
  selectedFileName : String := ""
  songPlaying : Bool := false
  recordingSource : Source := .mic
  songClone : Option Nat := none
  audioSrc : Option Nat := none
  audioMuted : Bool := false
  audioTime : Nat := 0
  onendedArmed : Bool := false
  toggleDisabled : Bool := true
  fileInputDisabled : Bool := false
  recordingsList : List RecEntry := []
  galleryChildren : List Item := []
  currentModalIndex : Option Nat := none
  nextUrl : Nat := 0
  stoppedTracks : List Nat := []
  revoked : List Nat := []
  alerts : List Alert := []
  pendingOnstop : Bool := false
  pendingSwitch : Option Nat := none
  switchLog : List (Nat × Source) := []
deriving DecidableEq, Repr

/-- The state at page load: every module variable at its initialiser. -/
def initState : AppState := {}

/-- Is the hardware track `t` still live (never had track.stop() called)? -/
def trackLive (s : AppState) (t : Nat) : Bool :=
  !(s.stoppedTracks.contains t)

/-- Does the stream still have a live hardware track? -/
def streamLive (s : AppState) (st : Stream) : Bool :=
  st.tracks.any (trackLive s)

/-- Does the `cameraStream` variable reference a live device stream? -/
def liveReferenced (s : AppState) : Bool :=
  match s.cameraStream with
  | some st => streamLive s st
  | none => false

/-- initCamera(force) (identical in main.js 121-168 and part_002 110-130):
if a stream exists and force is not set it is reused; otherwise the old
tracks are stopped and getUserMedia is awaited. `outcome` is the result of
getUserMedia: a fresh stream, or `none` when the request is rejected (the
catch branch alerts and keeps the old, now stopped, `cameraStream`). -/
def initCamera (force : Bool) (outcome : Option Stream) (s : AppState) : AppState :=
  if s.cameraStream.isSome && !force then s
  else
    let s1 :=
      match s.cameraStream with
      | some st => { s with stoppedTracks := s.stoppedTracks ++ st.tracks }
      | none => s
    match outcome with
    | some st => { s1 with cameraStream := some st }
    | none => { s1 with alerts := s1.alerts ++ [Alert.cameraUnavailable] }

/-- Other facing mode. -/
def Facing.other : Facing → Facing
  | .user => .environment
  | .environment => .user

/-- switchCamera (identical in main.js 532-536 and part_002 511-515):
flip the facing mode and force-reinitialise the stream. -/
def switchCamera (outcome : Option Stream) (s : AppState) : AppState :=
  initCamera true outcome { s with currentFacing := s.currentFacing.other }

/-- handleFileSelection (identical in main.js 175-202 and part_002 137-164):
no file clears the selection; a file revokes the previous object URL and
installs a fresh one. -/
def handleFileSelection (file : Option String) (s : AppState) : AppState :=
  match file with
  | none =>
      { s with selectedFileName := "", audioSrc := none, toggleDisabled := true }
  | some name =>
      let s1 :=
        match s.audioSrc with
        | some u => { s with revoked := s.revoked ++ [u] }
        | none => s
      { s1 with
          selectedFileName := name
          audioSrc := some s1.nextUrl
          nextUrl := s1.nextUrl + 1
          toggleDisabled := true
          songPlaying := false }

/-- stopRecording (identical in main.js 365-396 and part_002 313-344):
clears the song timer interval, pauses and resets both audio elements,
disables the toggle, re-enables file input, stops the MediaRecorder when it
is not inactive (queueing its onstop callback) and clears the recording
flag. Note that it touches no setTimeout handle. -/
def stopRecording (s : AppState) : AppState :=
  if s.isRecording = false then s
  else
    { s with
        timerInterval := false
        audioTime := 0
        toggleDisabled := true
        fileInputDisabled := false
        mediaRecorderActive :=
          match s.mediaRecorderActive with
          | some true => some false
          | o => o
        pendingOnstop :=
          match s.mediaRecorderActive with
          | some true => true
          | _ => s.pendingOnstop
        isRecording := false }

/-- toggleSource (identical in main.js 506-526 and part_002 485-505):
a no-op unless recording; otherwise swaps the two gain values and the
recordingSource flag. Dereferences the gain nodes. -/
def toggleSource (now : Nat) (s : AppState) : Except JsError AppState :=
  if s.isRecording = false then .ok s
  else
    match s.microGain, s.songGain with
    | some _, some _ =>
        match s.recordingSource with
        | .song =>
            .ok { s with
                    microGain := some 1
                    songGain := some 0
                    recordingSource := .mic
                    switchLog := s.switchLog ++ [(now, Source.mic)] }
        | .mic =>
            .ok { s with
                    microGain := some 0
                    songGain := some 1
                    recordingSource := .song
                    switchLog := s.switchLog ++ [(now, Source.song)] }
    | _, _ => .error .typeError

/-- The audioPlayer.onended handler installed by startSong (main.js 254-258,
part_002 213-217): run stopRecording when a recording is active. -/
def onended (s : AppState) : AppState :=
  if s.isRecording then stopRecording s else s

/-- The MediaRecorder ondataavailable handler (main.js 342-344): append the
chunk to the session buffer. -/
def dataavailable (c : Nat) (s : AppState) : AppState :=
  { s with recordedChunks := s.recordedChunks ++ [c] }

/-- The while loop of the V6 handleStop (main.js 441-451): while the gallery
container has more than 10 children, remove the first child, revoke its
object URL, and shift the head off recordingsList. -/
def evict (items : List Item) (recs : List RecEntry) (revoked : List Nat) :
    List Item × List RecEntry × List Nat :=
  match items with
  | [] => ([], recs, revoked)
  | c :: rest =>
      if (c :: rest).length > 10 then evict rest recs.tail (revoked ++ [c.url])
      else (c :: rest, recs, revoked)

namespace V6

/-- startSong in the current revision (main.js 233-266): reset both audio
elements, unmute the user player, set mic gain 0 and song gain 1, start the
recording clone, arm the song timer and the onended auto-stop, enable the
toggle, and mark the song as the recorded source. Dereferences the gain
nodes (a TypeError when they are null). `now` timestamps the ghost switch
log. -/
def startSong (now : Nat) (s : AppState) : Except JsError AppState :=
  if s.audioSrc = none then .ok s
  else
    match s.microGain, s.songGain with
    | some _, some _ =>
        .ok { s with
                audioTime := 0
                audioMuted := false
                microGain := some 0
                songGain := some 1
                songPlaying := true
                timerInterval := true
                onendedArmed := true
                toggleDisabled := false
                recordingSource := .song
                switchLog := s.switchLog ++ [(now, Source.song)] }
    | _, _ => .error .typeError

/-- startRecording in the current revision (main.js 273-359). Guards run at
entry; the awaited 3 s countdown is modelled by taking `now` as the time at
which the countdown has completed and the continuation runs (events
interleaved during the countdown are not modelled). The capture graph is
built with mic gain 1 and song gain 0, the recorder is started, and then,
in the same turn, startSong() switches the recorded source to the song
(main.js 352-359): there is no pre-roll timer in this revision. -/
def startRecording (now : Nat) (s : AppState) : Except JsError AppState :=
  if s.isRecording then .ok s
  else if s.cameraStream = none then
    .ok { s with alerts := s.alerts ++ [Alert.cameraUnavailable] }
  else if s.audioSrc = none then
    .ok { s with alerts := s.alerts ++ [Alert.noTrackSelected] }
  else
    startSong now
      { s with
          audioTime := 0
          audioMuted := true
          recordedChunks := []
          recordingStartTime := some now
          recordingSource := .mic
          microGain := some 1
          songGain := some 0
          songClone := s.audioSrc
          mediaRecorderActive := some true
          isRecording := true
          fileInputDisabled := true
          toggleDisabled := true
          switchLog := [(now, Source.mic)] }

/-- handleStop in the current revision (main.js 404-499): assemble the blob,
create its object URL, compute the duration from the wall clock (Math.round
of (Date.now() - recordingStartTime) / 1000, with a null start time
coercing to 0), push the entry onto recordingsList and the item into the
gallery container, run the 10-entry eviction loop, then tear down the audio
graph, null every node, release the clone and disable the toggle. -/
def handleStop (now : Nat) (s : AppState) : AppState :=
  let durationSec := (now - s.recordingStartTime.getD 0 + 500) / 1000
  let url := s.nextUrl
  let entry : RecEntry := ⟨url, s.selectedFileName, durationSec⟩
  let out := evict (s.galleryChildren ++ [⟨url⟩]) (s.recordingsList ++ [entry]) s.revoked
  { s with
      nextUrl := s.nextUrl + 1
      galleryChildren := out.1
      recordingsList := out.2.1
      revoked := out.2.2
      microGain := none
      songGain := none
      mediaRecorderActive := none
      songPlaying := false
      songClone := none
      toggleDisabled := true
      pendingOnstop := false }

/-- The deleteAll button handler (main.js 617-632): remove every gallery
child, revoking its URL, and splice recordingsList empty. -/
def deleteAllRecordings (s : AppState) : AppState :=
  { s with
      revoked := s.revoked ++ s.galleryChildren.map Item.url
      galleryChildren := []
      recordingsList := [] }

/-- The final setTimeout body of the downloadAll handler (main.js 657-667):
after the staggered downloads, remove every gallery child, revoking its
URL, and splice recordingsList empty. The click handler itself mutates
neither list. -/
def downloadAllClear (s : AppState) : AppState :=
  { s with
      revoked := s.revoked ++ s.galleryChildren.map Item.url
      galleryChildren := []
      recordingsList := [] }

/-- openModal (main.js 748-760): show the recording at `index` if it exists
in recordingsList; otherwise do nothing. -/
def openModal (index : Nat) (s : AppState) : AppState :=
  match s.recordingsList.get? index with
  | none => s
  | some _ => { s with currentModalIndex := some index }

/-- closeModal (main.js 765-771). -/
def closeModal (s : AppState) : AppState :=
  { s with currentModalIndex := none }

/-- nextModal (main.js 776-781): wrap past the end of recordingsList. -/
def nextModal (s : AppState) : AppState :=
  match s.currentModalIndex with
  | none => s
  | some i =>
      openModal (if i + 1 ≥ s.recordingsList.length then 0 else i + 1) s

/-- prevModal (main.js 786-791): wrap below zero to the last entry. -/
def prevModal (s : AppState) : AppState :=
  match s.currentModalIndex with
  | none => s
  | some i =>
      openModal (if i = 0 then s.recordingsList.length - 1 else i - 1) s

end V6

namespace P2

/-- startSong in the part_002 revision (part_002 195-225): like the V6
version but it starts the user player here (no mute priming exists in this
revision). Its only guard is that a song URL is loaded; it does not check
isRecording. Dereferences the gain nodes. -/
def startSong (now : Nat) (s : AppState) : Except JsError AppState :=
  if s.audioSrc = none then .ok s
  else
    match s.microGain, s.songGain with
    | some _, some _ =>
        .ok { s with
                audioTime := 0
                microGain := some 0
                songGain := some 1
                songPlaying := true
                timerInterval := true
                onendedArmed := true
                toggleDisabled := false
                recordingSource := .song
                switchLog := s.switchLog ++ [(now, Source.song)] }
    | _, _ => .error .typeError

/-- startRecording in the part_002 revision (part_002 232-307): same guards
and capture setup as V6, but instead of calling startSong directly it arms
a 3000 ms setTimeout (part_002 303-307). `pendingSwitch := some now`
records the timer armed at time `now`. -/
def startRecording (now : Nat) (s : AppState) : AppState :=
  if s.isRecording then s
  else if s.cameraStream = none then
    { s with alerts := s.alerts ++ [Alert.cameraUnavailable] }
  else if s.audioSrc = none then
    { s with alerts := s.alerts ++ [Alert.noTrackSelected] }
  else
    { s with
        recordedChunks := []
        recordingStartTime := some now
        recordingSource := .mic
        microGain := some 1
        songGain := some 0
        songClone := s.audioSrc
        mediaRecorderActive := some true
        isRecording := true
        fileInputDisabled := true
        toggleDisabled := true
        pendingSwitch := some now
        switchLog := [(now, Source.mic)] }

/-- The pre-roll setTimeout firing (part_002 304-306): the callback body is
exactly startSong(); firing consumes the timer handle. Nothing in the
callback checks the recording state. -/
def timerFire (now : Nat) (s : AppState) : Except JsError AppState :=
  if s.pendingSwitch.isSome then
    startSong now { s with pendingSwitch := none }
  else .ok s

/-- The while loop of the part_002 handleStop (part_002 438-440): it removes
first children beyond 10 without revoking their URLs and without any
recordingsList (this revision has none). -/
def evictItems (items : List Item) : List Item :=
  match items with
  | [] => []
  | c :: rest =>
      if (c :: rest).length > 10 then evictItems rest
      else c :: rest

/-- handleStop in the part_002 revision (part_002 352-478): assemble the
blob, append the gallery item, run the 10-item eviction, then tear down the
audio graph, null every node, release the clone and disable the toggle. -/
def handleStop (now : Nat) (s : AppState) : AppState :=
  let _durationSec := (now - s.recordingStartTime.getD 0 + 500) / 1000
  let url := s.nextUrl
  { s with
      nextUrl := s.nextUrl + 1
      galleryChildren := evictItems (s.galleryChildren ++ [⟨url⟩])
      microGain := none
      songGain := none
      mediaRecorderActive := none
      songPlaying := false
      songClone := none
      toggleDisabled := true
      pendingOnstop := false }

end P2

/-- Other recorded source. -/
def Source.other : Source → Source
  | .mic => .song
  | .song => .mic

/-- Modelled from the spec glossary, which defines the pre-roll as "the
fixed window at the start of a recording during which ambient microphone
audio is captured before switching to the music track": read off the ghost
switch log the length of the initial microphone-only window of the
artifact. -/
def prerollWindow : List (Nat × Source) → Nat
  | (t1, Source.mic) :: (t2, Source.song) :: _ => t2 - t1
  | _ => 0

/-- A two-track device stream delivered by getUserMedia in concrete runs. -/
def camStream : Stream := ⟨[0, 1]⟩

/-- A fresh stream delivered by getUserMedia after a facing switch. -/
def freshStream : Stream := ⟨[2, 3]⟩

/-- Page load followed by a granted camera acquisition. -/
def demo1 : AppState := initCamera false (some camStream) initState

/-- A song file selected after the camera acquisition. -/
def demo2 : AppState := handleFileSelection (some "track.mp3") demo1

/-- V6 recording started at time 5 (time the countdown completed). -/
def demo3 : AppState := ((V6.startRecording 5 demo2).toOption).getD initState

/-- The V6 recording stopped. -/
def demo4 : AppState := stopRecording demo3

/-- The V6 finalize callback fired at time 2000. -/
def demo5 : AppState := V6.handleStop 2000 demo4

/-- Part_002 recording started at time 0: the pre-roll timer is armed. -/
def p2start : AppState := P2.startRecording 0 demo2

/-- Part_002 recording stopped at time 1000, during the 3 s pre-roll. -/
def p2stopped : AppState := stopRecording p2start

/-- The late pre-roll timer fired at 3000, after the stop. -/
def p2late : AppState := ((P2.timerFire 3000 p2stopped).toOption).getD initState

/-- The part_002 finalize callback fired at time 1000, after the stop. -/
def p2finalized : AppState := P2.handleStop 1000 p2stopped

/-- A gallery tail of nine items with urls 1..9, below a head item url 0. -/
def g9 : List Item :=
  [⟨1⟩, ⟨2⟩, ⟨3⟩, ⟨4⟩, ⟨5⟩, ⟨6⟩, ⟨7⟩, ⟨8⟩, ⟨9⟩]

/-- A recordings metadata list of ten entries with urls 0..9. -/
def r10 : List RecEntry :=
  [⟨0, "t", 1⟩, ⟨1, "t", 1⟩, ⟨2, "t", 1⟩, ⟨3, "t", 1⟩, ⟨4, "t", 1⟩,
   ⟨5, "t", 1⟩, ⟨6, "t", 1⟩, ⟨7, "t", 1⟩, ⟨8, "t", 1⟩, ⟨9, "t", 1⟩]

/-- A state whose gallery is full with ten entries. -/
def s10 : AppState :=
  { initState with
      galleryChildren := ⟨0⟩ :: g9
      recordingsList := r10
      nextUrl := 10 }

/-- One event of the current revision (main.js). Each constructor is one
handler invocation; side conditions state when the platform can deliver the
event: a change event cannot fire on a disabled file input, onended only
once the handler is installed, ondataavailable and onstop only from an
existing recorder, and the onstop task queued by MediaRecorder.stop() runs
before any later user gesture can start a new recording (hence the
`pendingOnstop = false` side condition on `start`). -/
inductive Step : AppState → AppState → Prop
  | initCam (force : Bool) (outcome : Option Stream) (s : AppState) :
      Step s (initCamera force outcome s)
  | selectFile (file : Option String) (s : AppState) :
      s.fileInputDisabled = false → Step s (handleFileSelection file s)
  | start (now : Nat) (s s' : AppState) :
      s.pendingOnstop = false → V6.startRecording now s = .ok s' → Step s s'
  | toggle (now : Nat) (s s' : AppState) :
      toggleSource now s = .ok s' → Step s s'
  | stop (s : AppState) : Step s (stopRecording s)
  | ended (s : AppState) : s.onendedArmed = true → Step s (onended s)
  | data (c : Nat) (s : AppState) :
      s.mediaRecorderActive = some true → Step s (dataavailable c s)
  | onstop (now : Nat) (s : AppState) :
      s.pendingOnstop = true → Step s (V6.handleStop now s)
  | deleteAll (s : AppState) : Step s (V6.deleteAllRecordings s)
  | downloadClear (s : AppState) : Step s (V6.downloadAllClear s)
  | switchCam (outcome : Option Stream) (s : AppState) :
      Step s (switchCamera outcome s)
  | modalOpen (i : Nat) (s : AppState) : Step s (V6.openModal i s)
  | modalClose (s : AppState) : Step s (V6.closeModal s)
  | modalNext (s : AppState) : Step s (V6.nextModal s)
  | modalPrev (s : AppState) : Step s (V6.prevModal s)

/-- States of the current revision reachable from page load. -/
def Reach (s : AppState) : Prop :=
  Relation.ReflTransGen Step initState s

/-- The inductive invariant: while recording, the two gains exist, are
mutually exclusive and agree with recordingSource; a queued onstop implies
the session already left the recording state; the gallery is capped at 10;
and the gallery container matches recordingsList entry for entry. -/
def Inv (s : AppState) : Prop :=
  (s.isRecording = true →
      (s.microGain = some 1 ∧ s.songGain = some 0 ∧ s.recordingSource = .mic) ∨
      (s.microGain = some 0 ∧ s.songGain = some 1 ∧ s.recordingSource = .song)) ∧
  (s.pendingOnstop = true → s.isRecording = false) ∧
  s.galleryChildren.length ≤ 10 ∧
  s.galleryChildren.map Item.url = s.recordingsList.map RecEntry.url

theorem evict_length_le (items : List Item) (recs : List RecEntry) (rev : List Nat) :
    (evict items recs rev).1.length ≤ 10 := by
  induction items generalizing recs rev with
  | nil => simp [evict]
  | cons c rest ih =>
      rw [evict]
      split
      · exact ih _ _
      · next hgt => simpa using Nat.not_lt.mp hgt

theorem evict_maps (items : List Item) (recs : List RecEntry) (rev : List Nat)
    (h : items.map Item.url = recs.map RecEntry.url) :
    (evict items recs rev).1.map Item.url = (evict items recs rev).2.1.map RecEntry.url := by
  induction items generalizing recs rev with
  | nil =>
      cases recs with
      | nil => simp [evict]
      | cons r rs => simp at h
  | cons c rest ih =>
      cases recs with
      | nil => simp at h
      | cons r rs =>
          simp only [List.map_cons, List.cons.injEq] at h
          rw [evict]
          split
          · exact ih rs (rev ++ [c.url]) h.2
          · simp [h.1, h.2]

theorem inv_initCamera (force : Bool) (o : Option Stream) (s : AppState) (h : Inv s) :
    Inv (initCamera force o s) := by
  obtain ⟨h1, h2, h3, h4⟩ := h
  unfold initCamera
  split
  · exact ⟨h1, h2, h3, h4⟩
  · cases hc : s.cameraStream <;> cases o <;> simp only [hc] <;> exact ⟨h1, h2, h3, h4⟩

theorem inv_handleFileSelection (f : Option String) (s : AppState) (h : Inv s) :
    Inv (handleFileSelection f s) := by
  obtain ⟨h1, h2, h3, h4⟩ := h
  cases f with
  | none => exact ⟨h1, h2, h3, h4⟩
  | some name =>
      unfold handleFileSelection
      cases hc : s.audioSrc <;> simp only [hc] <;> exact ⟨h1, h2, h3, h4⟩

theorem inv_stopRecording (s : AppState) (h : Inv s) : Inv (stopRecording s) := by
  obtain ⟨h1, h2, h3, h4⟩ := h
  unfold stopRecording
  split
  · exact ⟨h1, h2, h3, h4⟩
  · refine ⟨?_, ?_, h3, h4⟩
    · intro hx; simp at hx
    · intro _; rfl

theorem inv_onended (s : AppState) (h : Inv s) : Inv (onended s) := by
  unfold onended
  split
  · exact inv_stopRecording s h
  · exact h

theorem inv_toggleSource (now : Nat) (s s' : AppState)
    (hok : toggleSource now s = .ok s') (h : Inv s) : Inv s' := by
  obtain ⟨h1, h2, h3, h4⟩ := h
  unfold toggleSource at hok
  split at hok
  · next hr =>
      obtain rfl : s = s' := by injection hok
      exact ⟨h1, h2, h3, h4⟩
  · next hr =>
      have hrec : s.isRecording = true := by
        cases hb : s.isRecording
        · exact absurd hb hr
        · rfl
      rcases h1 hrec with ⟨ha, hb, hc⟩ | ⟨ha, hb, hc⟩ <;>
        rw [ha, hb, hc] at hok <;>
        simp only [Except.ok.injEq] at hok <;>
        subst hok
      · refine ⟨?_, ?_, h3, h4⟩
        · intro _; right; exact ⟨rfl, rfl, rfl⟩
        · intro hp
          exact absurd (h2 hp) (by simp [hrec])
      · refine ⟨?_, ?_, h3, h4⟩
        · intro _; left; exact ⟨rfl, rfl, rfl⟩
        · intro hp
          exact absurd (h2 hp) (by simp [hrec])

theorem inv_startRecording (now : Nat) (s s' : AppState)
    (hpo : s.pendingOnstop = false)
    (hok : V6.startRecording now s = .ok s') (h : Inv s) : Inv s' := by
  obtain ⟨h1, h2, h3, h4⟩ := h
  unfold V6.startRecording at hok
  split at hok
  · obtain rfl : s = s' := by injection hok
    exact ⟨h1, h2, h3, h4⟩
  · split at hok
    · simp only [Except.ok.injEq] at hok
      subst hok
      exact ⟨h1, h2, h3, h4⟩
    · split at hok
      · simp only [Except.ok.injEq] at hok
        subst hok
        exact ⟨h1, h2, h3, h4⟩
      · next hsrc =>
          unfold V6.startSong at hok
          rw [if_neg hsrc] at hok
          simp only [Except.ok.injEq] at hok
          subst hok
          refine ⟨?_, ?_, h3, h4⟩
          · intro _; right; exact ⟨rfl, rfl, rfl⟩
          · intro hp
            exact absurd hp (by simp [hpo])

theorem inv_handleStop (now : Nat) (s : AppState)
    (hpo : s.pendingOnstop = true) (h : Inv s) : Inv (V6.handleStop now s) := by
  obtain ⟨h1, h2, h3, h4⟩ := h
  refine ⟨?_, ?_, ?_, ?_⟩
  · intro hx
    have hx' : s.isRecording = true := hx
    simp [h2 hpo] at hx'
  · intro hx
    simp [V6.handleStop] at hx
  · exact evict_length_le _ _ _
  · refine evict_maps _ _ _ ?_
    simp [h4]

theorem inv_dataavailable (c : Nat) (s : AppState) (h : Inv s) :
    Inv (dataavailable c s) := by
  obtain ⟨h1, h2, h3, h4⟩ := h
  exact ⟨h1, h2, h3, h4⟩

theorem inv_deleteAll (s : AppState) (h : Inv s) : Inv (V6.deleteAllRecordings s) := by
  obtain ⟨h1, h2, h3, h4⟩ := h
  exact ⟨h1, h2, by simp [V6.deleteAllRecordings], by simp [V6.deleteAllRecordings]⟩

theorem inv_downloadClear (s : AppState) (h : Inv s) : Inv (V6.downloadAllClear s) := by
  obtain ⟨h1, h2, h3, h4⟩ := h
  exact ⟨h1, h2, by simp [V6.downloadAllClear], by simp [V6.downloadAllClear]⟩

theorem inv_switchCamera (o : Option Stream) (s : AppState) (h : Inv s) :
    Inv (switchCamera o s) := by
  obtain ⟨h1, h2, h3, h4⟩ := h
  exact inv_initCamera true o _ ⟨h1, h2, h3, h4⟩

theorem inv_openModal (i : Nat) (s : AppState) (h : Inv s) : Inv (V6.openModal i s) := by
  obtain ⟨h1, h2, h3, h4⟩ := h
  unfold V6.openModal
  cases hc : s.recordingsList.get? i <;> exact ⟨h1, h2, h3, h4⟩

theorem inv_closeModal (s : AppState) (h : Inv s) : Inv (V6.closeModal s) := by
  obtain ⟨h1, h2, h3, h4⟩ := h
  exact ⟨h1, h2, h3, h4⟩

theorem inv_nextModal (s : AppState) (h : Inv s) : Inv (V6.nextModal s) := by
  unfold V6.nextModal
  cases hc : s.currentModalIndex
  · exact h
  · exact inv_openModal _ s h

theorem inv_prevModal (s : AppState) (h : Inv s) : Inv (V6.prevModal s) := by
  unfold V6.prevModal
  cases hc : s.currentModalIndex
  · exact h
  · exact inv_openModal _ s h

theorem step_inv {s s' : AppState} (st : Step s s') (h : Inv s) : Inv s' := by
  cases st with
  | initCam f o s => exact inv_initCamera f o s h
  | selectFile f s _ => exact inv_handleFileSelection f s h
  | start now s s' hpo hok => exact inv_startRecording now s s' hpo hok h
  | toggle now s s' hok => exact inv_toggleSource now s s' hok h
  | stop s => exact inv_stopRecording s h
  | ended s _ => exact inv_onended s h
  | data c s _ => exact inv_dataavailable c s h
  | onstop now s hpo => exact inv_handleStop now s hpo h
  | deleteAll s => exact inv_deleteAll s h
  | downloadClear s => exact inv_downloadClear s h
  | switchCam o s => exact inv_switchCamera o s h
  | modalOpen i s => exact inv_openModal i s h
  | modalClose s => exact inv_closeModal s h
  | modalNext s => exact inv_nextModal s h
  | modalPrev s => exact inv_prevModal s h

theorem init_inv : Inv initState := by
  refine ⟨?_, ?_, ?_, ?_⟩
  · intro hx; simp [initState] at hx
  · intro hx; simp [initState] at hx
  · simp [initState]
  · rfl

theorem reach_inv {s : AppState} (h : Reach s) : Inv s := by
  induction h with
  | refl => exact init_inv
  | tail _ st ih => exact step_inv st ih

theorem stopRecording_of_active (s : AppState) (h : s.isRecording = true) :
    stopRecording s =
      { s with
          timerInterval := false
          audioTime := 0
          toggleDisabled := true
          fileInputDisabled := false
          mediaRecorderActive :=
            match s.mediaRecorderActive with
            | some true => some false
            | o => o
          pendingOnstop :=
            match s.mediaRecorderActive with
            | some true => true
            | _ => s.pendingOnstop
          isRecording := false } := by
  unfold stopRecording
  rw [if_neg (by simp [h])]

theorem stopRecording_isRecording (s : AppState) :
    (stopRecording s).isRecording = false := by
  unfold stopRecording
  split
  · next h => exact h
  · rfl

theorem stopRecording_idem (s : AppState) :
    stopRecording (stopRecording s) = stopRecording s := by
  by_cases h : s.isRecording = false
  · have e : stopRecording s = s := by unfold stopRecording; rw [if_pos h]
    rw [e]
    exact e
  · unfold stopRecording
    rw [if_neg h]
    rw [if_pos rfl]

theorem evict_of_le (items : List Item) (recs : List RecEntry) (rev : List Nat)
    (h : items.length ≤ 10) : evict items recs rev = (items, recs, rev) := by
  cases items with
  | nil => simp [evict]
  | cons c rest =>
      rw [evict]
      rw [if_neg (by omega)]

theorem evict_recs_eq_drop (items : List Item) (recs : List RecEntry) (rev : List Nat) :
    (evict items recs rev).2.1 = recs.drop (items.length - 10) := by
  induction items generalizing recs rev with
  | nil => simp [evict]
  | cons c rest ih =>
      rw [evict]
      split
      · next hgt =>
          have hlen : rest.length ≥ 10 := by simp at hgt; omega
          rw [ih recs.tail (rev ++ [c.url]), ← List.drop_one, List.drop_drop]
          congr 1
          simp
          omega
      · next hgt =>
          have h0 : (c :: rest).length - 10 = 0 := by simp at hgt ⊢; omega
          rw [h0, List.drop_zero]

theorem evict_recs_getLast (items : List Item) (recs : List RecEntry) (rev : List Nat)
    (e : RecEntry) (hlen : items.length ≤ recs.length) :
    (evict (items ++ [⟨e.url⟩]) (recs ++ [e]) rev).2.1.getLast? = some e := by
  rw [evict_recs_eq_drop]
  rw [List.drop_append_of_le_length (by simp; omega)]
  exact List.getLast?_concat _

theorem toggleSource_cases (now : Nat) {s s' : AppState}
    (hrec : s.isRecording = true)
    (hinv : (s.microGain = some 1 ∧ s.songGain = some 0 ∧ s.recordingSource = .mic) ∨
            (s.microGain = some 0 ∧ s.songGain = some 1 ∧ s.recordingSource = .song))
    (hok : toggleSource now s = .ok s') :
    (s.microGain = some 1 ∧ s.songGain = some 0 ∧ s.recordingSource = .mic ∧
      s' = { s with microGain := some 0, songGain := some 1, recordingSource := .song,
                    switchLog := s.switchLog ++ [(now, Source.song)] }) ∨
    (s.microGain = some 0 ∧ s.songGain = some 1 ∧ s.recordingSource = .song ∧
      s' = { s with microGain := some 1, songGain := some 0, recordingSource := .mic,
                    switchLog := s.switchLog ++ [(now, Source.mic)] }) := by
  unfold toggleSource at hok
  rw [if_neg (by simp [hrec])] at hok
  rcases hinv with ⟨ha, hb, hc⟩ | ⟨ha, hb, hc⟩ <;> rw [ha, hb, hc] at hok <;>
    simp only [Except.ok.injEq] at hok
  · exact Or.inl ⟨ha, hb, hc, hok.symm⟩
  · exact Or.inr ⟨ha, hb, hc, hok.symm⟩

theorem demo1_reach : Reach demo1 :=
  Relation.ReflTransGen.tail Relation.ReflTransGen.refl
    (Step.initCam false (some camStream) initState)

theorem demo2_reach : Reach demo2 :=
  Relation.ReflTransGen.tail demo1_reach
    (Step.selectFile (some "track.mp3") demo1 (by decide))

theorem demo3_start : V6.startRecording 5 demo2 = .ok demo3 := rfl

theorem demo3_reach : Reach demo3 :=
  Relation.ReflTransGen.tail demo2_reach
    (Step.start 5 demo2 demo3 (by decide) demo3_start)

theorem demo4_reach : Reach demo4 :=
  Relation.ReflTransGen.tail demo3_reach (Step.stop demo3)

theorem demo5_reach : Reach demo5 :=
  Relation.ReflTransGen.tail demo4_reach
    (Step.onstop 2000 demo4 (by decide))

/-- C1: in every reachable state of main.js with an active recording
session, exactly one of the two gains (microGain, songGain) equals 1 and
the other equals 0; every toggleSource call on an active session swaps the
two gain values atomically, and the automatic switch performed by startSong
swaps (mic 1, song 0) to (mic 0, song 1). -/
theorem gains_mutually_exclusive :
    (∀ s : AppState, Reach s → s.isRecording = true →
        (s.microGain = some 1 ∧ s.songGain = some 0) ∨
        (s.microGain = some 0 ∧ s.songGain = some 1)) ∧
    (∀ (now : Nat) (s s' : AppState), Reach s → s.isRecording = true →
        toggleSource now s = .ok s' →
        s'.microGain = s.songGain ∧ s'.songGain = s.microGain) ∧
    (∀ (now : Nat) (s s' : AppState), s.audioSrc ≠ none →
        s.microGain = some 1 → s.songGain = some 0 →
        V6.startSong now s = .ok s' →
        s'.microGain = some 0 ∧ s'.songGain = some 1) := by
  refine ⟨?_, ?_, ?_⟩
  · intro s hre hrec
    rcases (reach_inv hre).1 hrec with ⟨ha, hb, _⟩ | ⟨ha, hb, _⟩
    · exact Or.inl ⟨ha, hb⟩
    · exact Or.inr ⟨ha, hb⟩
  · intro now s s' hre hrec hok
    rcases toggleSource_cases now hrec ((reach_inv hre).1 hrec) hok with
      ⟨ha, hb, _, rfl⟩ | ⟨ha, hb, _, rfl⟩
    · simp [ha, hb]
    · simp [ha, hb]
  · intro now s s' hsrc ha hb hok
    unfold V6.startSong at hok
    rw [if_neg hsrc, ha, hb] at hok
    simp only [Except.ok.injEq] at hok
    subst hok
    exact ⟨rfl, rfl⟩

/-- Witness for C1 at the concrete reachable recording state demo3. -/
theorem gains_mutually_exclusive_witness :
    (demo3.microGain = some 1 ∧ demo3.songGain = some 0) ∨
    (demo3.microGain = some 0 ∧ demo3.songGain = some 1) :=
  gains_mutually_exclusive.1 demo3 demo3_reach (by decide)

/-- C6: toggleSource is a no-op (the state is returned unchanged) whenever
no recording is active, and on every reachable active session it flips the
recorded source and swaps the two gain values. -/
theorem toggleSource_noop_or_flip :
    (∀ (now : Nat) (s : AppState), s.isRecording = false →
        toggleSource now s = .ok s) ∧
    (∀ (now : Nat) (s : AppState), Reach s → s.isRecording = true →
        ∃ s', toggleSource now s = .ok s' ∧
          s'.recordingSource = s.recordingSource.other ∧
          s'.microGain = s.songGain ∧ s'.songGain = s.microGain ∧
          s'.isRecording = true) := by
  constructor
  · intro now s h
    unfold toggleSource
    rw [if_pos h]
  · intro now s hre hrec
    rcases (reach_inv hre).1 hrec with ⟨ha, hb, hc⟩ | ⟨ha, hb, hc⟩
    · refine ⟨{ s with microGain := some 0, songGain := some 1,
                       recordingSource := .song,
                       switchLog := s.switchLog ++ [(now, Source.song)] },
              ?_, ?_, ?_, ?_, hrec⟩
      · unfold toggleSource
        rw [if_neg (by simp [hrec]), ha, hb, hc]
      · simp [hc, Source.other]
      · simp [hb]
      · simp [ha]
    · refine ⟨{ s with microGain := some 1, songGain := some 0,
                       recordingSource := .mic,
                       switchLog := s.switchLog ++ [(now, Source.mic)] },
              ?_, ?_, ?_, ?_, hrec⟩
      · unfold toggleSource
        rw [if_neg (by simp [hrec]), ha, hb, hc]
      · simp [hc, Source.other]
      · simp [hb]
      · simp [ha]

/-- Witness for C6: the no-op case at the idle initial state and the flip
case at the concrete reachable recording state demo3. -/
theorem toggleSource_noop_or_flip_witness :
    toggleSource 7 initState = .ok initState ∧
    ∃ s', toggleSource 7 demo3 = .ok s' ∧
      s'.recordingSource = demo3.recordingSource.other ∧
      s'.microGain = demo3.songGain ∧ s'.songGain = demo3.microGain ∧
      s'.isRecording = true :=
  ⟨toggleSource_noop_or_flip.1 7 initState (by decide),
   toggleSource_noop_or_flip.2 7 demo3 demo3_reach (by decide)⟩

/-- C7: from every active recording state the session reaches Stopped both
on the explicit stop command and on the end-of-media event of the music
player, and the onended handler takes literally the same stop path: its
resulting state is stopRecording of the current state. -/
theorem stop_paths_agree :
    (∀ s : AppState, s.isRecording = true → onended s = stopRecording s) ∧
    (∀ s : AppState, (stopRecording s).isRecording = false) ∧
    (∀ s : AppState, s.isRecording = true → (onended s).isRecording = false) := by
  refine ⟨?_, stopRecording_isRecording, ?_⟩
  · intro s h
    unfold onended
    rw [if_pos (by simp [h])]
  · intro s h
    unfold onended
    rw [if_pos (by simp [h])]
    exact stopRecording_isRecording s

/-- Witness for C7 at the concrete reachable recording state demo3. -/
theorem stop_paths_agree_witness :
    onended demo3 = stopRecording demo3 ∧ (onended demo3).isRecording = false :=
  ⟨stop_paths_agree.1 demo3 (by decide), stop_paths_agree.2.2 demo3 (by decide)⟩

/-- C5: every reachable state of main.js has at most 10 gallery entries;
every finalize leaves at most 10; and when a finalize inserts an 11th entry
into a full gallery, the oldest (first) entry is evicted and its object URL
revoked, leaving the remaining nine plus the new entry. -/
theorem gallery_capped :
    (∀ s : AppState, Reach s → s.galleryChildren.length ≤ 10) ∧
    (∀ (now : Nat) (s : AppState),
        (V6.handleStop now s).galleryChildren.length ≤ 10) ∧
    (∀ (now : Nat) (s : AppState) (c : Item) (rest : List Item),
        s.galleryChildren = c :: rest → rest.length = 9 →
        (V6.handleStop now s).galleryChildren = rest ++ [⟨s.nextUrl⟩] ∧
        c.url ∈ (V6.handleStop now s).revoked) := by
  refine ⟨?_, ?_, ?_⟩
  · intro s hre
    exact (reach_inv hre).2.2.1
  · intro now s
    simp only [V6.handleStop]
    exact evict_length_le _ _ _
  · intro now s c rest hg hrest
    simp only [V6.handleStop, hg, List.cons_append]
    rw [evict]
    rw [if_pos (by simp [hrest])]
    rw [evict_of_le _ _ _ (by simp [hrest])]
    exact ⟨rfl, by simp⟩

/-- Witness for C5: the cap at the initial state, and the FIFO eviction with
URL revocation at the concrete full-gallery state s10. -/
theorem gallery_capped_witness :
    initState.galleryChildren.length ≤ 10 ∧
    ((V6.handleStop 0 s10).galleryChildren = g9 ++ [⟨10⟩] ∧
      (0 : Nat) ∈ (V6.handleStop 0 s10).revoked) :=
  ⟨gallery_capped.1 initState Relation.ReflTransGen.refl,
   gallery_capped.2.2 0 s10 ⟨0⟩ g9 (by decide) (by decide)⟩

/-- C10: in every reachable state of main.js the gallery DOM container and
the recordingsList metadata array correspond entry for entry (equal url
sequences, hence equal lengths), and every index valid for recordingsList
is valid for the gallery; openModal accepts exactly those indices. -/
theorem gallery_list_correspondence :
    (∀ s : AppState, Reach s →
        s.galleryChildren.map Item.url = s.recordingsList.map RecEntry.url) ∧
    (∀ (s : AppState) (i : Nat), Reach s → i < s.recordingsList.length →
        i < s.galleryChildren.length ∧
        (V6.openModal i s).currentModalIndex = some i) := by
  constructor
  · intro s hre
    exact (reach_inv hre).2.2.2
  · intro s i hre hi
    have hmap := (reach_inv hre).2.2.2
    have hlen : s.galleryChildren.length = s.recordingsList.length := by
      simpa using congrArg List.length hmap
    refine ⟨by omega, ?_⟩
    unfold V6.openModal
    rcases hgi : s.recordingsList.get? i with _ | r
    · rw [List.get?_eq_none] at hgi
      omega
    · rfl

/-- Witness for C10 at the concrete reachable one-recording state demo5. -/
theorem gallery_list_correspondence_witness :
    0 < demo5.galleryChildren.length ∧
    (V6.openModal 0 demo5).currentModalIndex = some 0 :=
  gallery_list_correspondence.2 demo5 0 demo5_reach (by decide)

/-- C3: for a reachable active session started at wall-clock t0, stopping
and then running the finalize callback at wall-clock stopT appends exactly
one artifact entry whose recorded duration is Math.round of the wall-clock
elapsed time (within 500 ms, one polling interval, of stopT - t0); the stop
itself emits nothing, a second stop is a no-op, and the finalize consumes
the pending onstop so it cannot run twice. Below the full gallery the list
is exactly the old list plus the one new entry. -/
theorem one_artifact_per_cycle (s : AppState) (t0 stopT : Nat)
    (hre : Reach s) (hrec : s.isRecording = true)
    (hstart : s.recordingStartTime = some t0) (_hle : t0 ≤ stopT) :
    (V6.handleStop stopT (stopRecording s)).recordingsList.getLast? =
        some ⟨s.nextUrl, s.selectedFileName, (stopT - t0 + 500) / 1000⟩ ∧
    1000 * ((stopT - t0 + 500) / 1000) ≤ (stopT - t0) + 500 ∧
    (stopT - t0) ≤ 1000 * ((stopT - t0 + 500) / 1000) + 500 ∧
    (stopRecording s).recordingsList = s.recordingsList ∧
    stopRecording (stopRecording s) = stopRecording s ∧
    (V6.handleStop stopT (stopRecording s)).pendingOnstop = false ∧
    (s.galleryChildren.length ≤ 9 →
        (V6.handleStop stopT (stopRecording s)).recordingsList =
          s.recordingsList ++ [⟨s.nextUrl, s.selectedFileName, (stopT - t0 + 500) / 1000⟩]) := by
  have hs1 := stopRecording_of_active s hrec
  have hmap := (reach_inv hre).2.2.2
  have hlen : s.galleryChildren.length = s.recordingsList.length := by
    simpa using congrArg List.length hmap
  have hdm := Nat.div_add_mod (stopT - t0 + 500) 1000
  have hmod : (stopT - t0 + 500) % 1000 < 1000 := Nat.mod_lt _ (by norm_num)
  refine ⟨?_, by omega, by omega, by rw [hs1], stopRecording_idem s, ?_, ?_⟩
  · rw [hs1]
    simp only [V6.handleStop, hstart, Option.getD_some]
    exact evict_recs_getLast s.galleryChildren s.recordingsList s.revoked
      ⟨s.nextUrl, s.selectedFileName, (stopT - t0 + 500) / 1000⟩ (le_of_eq hlen)
  · simp [V6.handleStop]
  · intro h9
    rw [hs1]
    simp only [V6.handleStop, hstart, Option.getD_some]
    rw [evict_of_le _ _ _ (by simp; omega)]

/-- Witness for C3 at the concrete reachable recording state demo3, stopped
and finalized at wall-clock 2000. -/
theorem one_artifact_per_cycle_witness :
    (V6.handleStop 2000 (stopRecording demo3)).recordingsList.getLast? =
        some ⟨demo3.nextUrl, demo3.selectedFileName, (2000 - 5 + 500) / 1000⟩ ∧
    (V6.handleStop 2000 (stopRecording demo3)).pendingOnstop = false :=
  ⟨(one_artifact_per_cycle demo3 5 2000 demo3_reach (by decide) (by decide)
      (by decide)).1,
   (one_artifact_per_cycle demo3 5 2000 demo3_reach (by decide) (by decide)
      (by decide)).2.2.2.2.2.1⟩

/-- C8 (amended): a start attempt made while a camera stream is open, no
recording is active and no music file is selected is rejected with exactly
the NoTrackSelected prompt and changes nothing else: the resulting state is
the old state with only the prompt appended to the alert log (so no capture
session, no recorder, no audio graph, and the recording flag stays false).
When the camera stream is also missing, the camera-unavailable prompt is
shown instead (see the counterexample), still with no state change. -/
theorem no_track_selected_rejected (now : Nat) (s : AppState)
    (h1 : s.isRecording = false) (h2 : s.cameraStream ≠ none)
    (h3 : s.audioSrc = none) :
    V6.startRecording now s =
      .ok { s with alerts := s.alerts ++ [Alert.noTrackSelected] } := by
  unfold V6.startRecording
  rw [if_neg (by simp [h1]), if_neg h2, if_pos h3]

/-- Witness for C8 at the concrete camera-open, no-song state demo1. -/
theorem no_track_selected_rejected_witness :
    V6.startRecording 0 demo1 =
      .ok { demo1 with alerts := demo1.alerts ++ [Alert.noTrackSelected] } :=
  no_track_selected_rejected 0 demo1 (by decide) (by decide) (by decide)

/-- C8 counterexample: at the initial state no music file is selected, yet
the start attempt is rejected with the camera-unavailable prompt, not with
NoTrackSelected: the camera guard runs first (main.js 275-282). -/
theorem no_track_selected_counterexample :
    initState.audioSrc = none ∧
    V6.startRecording 0 initState =
      .ok { initState with alerts := [Alert.cameraUnavailable] } ∧
    Alert.noTrackSelected ∉
      ({ initState with alerts := [Alert.cameraUnavailable] } : AppState).alerts :=
  ⟨rfl, rfl, by decide⟩

/-- C9 (amended): a facing-mode switch always stops every hardware track of
the previous device stream; when the new acquisition succeeds with fresh
tracks, exactly the new stream is referenced and it is live; when the
acquisition fails, the stopped previous stream stays referenced, so no live
stream is referenced (see the counterexample). -/
theorem switch_camera_releases_tracks (s : AppState) (old fresh : Stream)
    (hold : s.cameraStream = some old)
    (hfresh : ∀ t ∈ fresh.tracks, ¬ t ∈ s.stoppedTracks ++ old.tracks)
    (hne : fresh.tracks ≠ []) :
    ((switchCamera (some fresh) s).cameraStream = some fresh ∧
      (∀ t ∈ old.tracks, trackLive (switchCamera (some fresh) s) t = false) ∧
      liveReferenced (switchCamera (some fresh) s) = true) ∧
    ((switchCamera none s).cameraStream = some old ∧
      ∀ t ∈ old.tracks, trackLive (switchCamera none s) t = false) := by
  have hsucc : switchCamera (some fresh) s =
      { s with currentFacing := s.currentFacing.other,
               stoppedTracks := s.stoppedTracks ++ old.tracks,
               cameraStream := some fresh } := by
    unfold switchCamera initCamera
    rw [if_neg (by simp)]
    rw [show ({ s with currentFacing := s.currentFacing.other } : AppState).cameraStream
          = some old from hold]
  have hfail : switchCamera none s =
      { s with currentFacing := s.currentFacing.other,
               stoppedTracks := s.stoppedTracks ++ old.tracks,
               alerts := s.alerts ++ [Alert.cameraUnavailable] } := by
    unfold switchCamera initCamera
    rw [if_neg (by simp)]
    rw [show ({ s with currentFacing := s.currentFacing.other } : AppState).cameraStream
          = some old from hold]
  refine ⟨⟨by rw [hsucc], ?_, ?_⟩, ⟨?_, ?_⟩⟩
  · intro t ht
    rw [hsucc]
    simp [trackLive, ht]
  · rw [hsucc]
    cases hft : fresh.tracks with
    | nil => exact absurd hft hne
    | cons t ts =>
        have hnot := hfresh t (by rw [hft]; exact List.mem_cons_self t ts)
        have htl : trackLive
            { s with currentFacing := s.currentFacing.other,
                     stoppedTracks := s.stoppedTracks ++ old.tracks,
                     cameraStream := some fresh } t = true := by
          simp only [trackLive]
          simpa using hnot
        show streamLive
            { s with currentFacing := s.currentFacing.other,
                     stoppedTracks := s.stoppedTracks ++ old.tracks,
                     cameraStream := some fresh } fresh = true
        unfold streamLive
        rw [hft, List.any_cons, htl]
        simp
  · rw [hfail]
    exact hold
  · intro t ht
    rw [hfail]
    simp [trackLive, ht]

/-- Witness for C9: the successful-switch half at the concrete state demo1
with fresh tracks 2 and 3. -/
theorem switch_camera_releases_tracks_witness :
    (switchCamera (some freshStream) demo1).cameraStream = some freshStream ∧
    liveReferenced (switchCamera (some freshStream) demo1) = true :=
  ⟨(switch_camera_releases_tracks demo1 camStream freshStream (by decide)
      (by decide) (by decide)).1.1,
   (switch_camera_releases_tracks demo1 camStream freshStream (by decide)
      (by decide) (by decide)).1.2.2⟩

/-- C9 counterexample: a facing-mode switch whose reacquisition is rejected
stops the old tracks but keeps the dead stream referenced: afterwards the
referenced device stream is not live, so the switch does not end with
exactly one live device stream referenced. -/
theorem switch_camera_counterexample :
    demo1.cameraStream = some camStream ∧
    liveReferenced demo1 = true ∧
    (switchCamera none demo1).cameraStream = some camStream ∧
    liveReferenced (switchCamera none demo1) = false := by decide

/-- C2 (amended): in the earlier revision part_002, a recording started at
time t0 with a camera stream open and a song selected begins with the
microphone as the recorded source (mic gain 1, song gain 0) and arms a
3000 ms timer; when that timer fires at t0 + 3000 the recorded source
switches to the music, so the artifact contains ambient microphone audio
for exactly the 3 s pre-roll and music afterwards. In the current revision
main.js the automatic switch runs in the same turn as capture start, so the
artifact has an empty pre-roll window and contains music audio throughout. -/
theorem preroll_switch (s : AppState) (t0 : Nat)
    (h1 : s.isRecording = false) (h2 : s.cameraStream ≠ none)
    (h3 : s.audioSrc ≠ none) :
    (P2.startRecording t0 s).recordingSource = .mic ∧
    (P2.startRecording t0 s).microGain = some 1 ∧
    (P2.startRecording t0 s).songGain = some 0 ∧
    (P2.startRecording t0 s).pendingSwitch = some t0 ∧
    (P2.startRecording t0 s).switchLog = [(t0, Source.mic)] ∧
    (∀ s2 : AppState,
        P2.timerFire (t0 + 3000) (P2.startRecording t0 s) = .ok s2 →
        s2.switchLog = [(t0, Source.mic), (t0 + 3000, Source.song)] ∧
        s2.recordingSource = .song ∧ s2.microGain = some 0 ∧
        s2.songGain = some 1 ∧ prerollWindow s2.switchLog = 3000) ∧
    (∃ s2 : AppState,
        P2.timerFire (t0 + 3000) (P2.startRecording t0 s) = .ok s2) ∧
    (∀ sv : AppState, V6.startRecording t0 s = .ok sv →
        sv.switchLog = [(t0, Source.mic), (t0, Source.song)] ∧
        sv.recordingSource = .song ∧ prerollWindow sv.switchLog = 0) := by
  have hrun : P2.startRecording t0 s =
      { s with recordedChunks := [], recordingStartTime := some t0,
               recordingSource := .mic, microGain := some 1, songGain := some 0,
               songClone := s.audioSrc, mediaRecorderActive := some true,
               isRecording := true, fileInputDisabled := true,
               toggleDisabled := true, pendingSwitch := some t0,
               switchLog := [(t0, Source.mic)] } := by
    unfold P2.startRecording
    rw [if_neg (by simp [h1]), if_neg h2, if_neg h3]
  have hfire : P2.timerFire (t0 + 3000) (P2.startRecording t0 s) =
      .ok { s with
              recordedChunks := [], recordingStartTime := some t0,
              recordingSource := .song, microGain := some 0, songGain := some 1,
              songClone := s.audioSrc, mediaRecorderActive := some true,
              isRecording := true, fileInputDisabled := true,
              toggleDisabled := false, pendingSwitch := none,
              audioTime := 0, songPlaying := true, timerInterval := true,
              onendedArmed := true,
              switchLog := [(t0, Source.mic), (t0 + 3000, Source.song)] } := by
    rw [hrun]
    simp [P2.timerFire, P2.startSong, h3]
  refine ⟨by rw [hrun], by rw [hrun], by rw [hrun], by rw [hrun], by rw [hrun],
          ?_, ⟨_, hfire⟩, ?_⟩
  · intro s2 h
    rw [hfire] at h
    simp only [Except.ok.injEq] at h
    subst h
    refine ⟨rfl, rfl, rfl, rfl, ?_⟩
    show t0 + 3000 - t0 = 3000
    omega
  · intro sv h
    have hv : V6.startRecording t0 s =
        .ok { s with
                recordedChunks := [], recordingStartTime := some t0,
                recordingSource := .song, microGain := some 0, songGain := some 1,
                songClone := s.audioSrc, mediaRecorderActive := some true,
                isRecording := true, fileInputDisabled := true,
                toggleDisabled := false, audioTime := 0, audioMuted := false,
                songPlaying := true, timerInterval := true, onendedArmed := true,
                switchLog := [(t0, Source.mic), (t0, Source.song)] } := by
      unfold V6.startRecording
      rw [if_neg (by simp [h1]), if_neg h2, if_neg h3]
      simp [V6.startSong, h3]
    rw [hv] at h
    simp only [Except.ok.injEq] at h
    subst h
    refine ⟨rfl, rfl, ?_⟩
    show t0 - t0 = 0
    omega

/-- Witness for C2 at the concrete camera-and-song state demo2. -/
theorem preroll_switch_witness :
    (P2.startRecording 0 demo2).pendingSwitch = some 0 ∧
    (P2.startRecording 0 demo2).switchLog = [(0, Source.mic)] :=
  ⟨(preroll_switch demo2 0 (by decide) (by decide) (by decide)).2.2.2.1,
   (preroll_switch demo2 0 (by decide) (by decide) (by decide)).2.2.2.2.1⟩

/-- C2 counterexample: in the current revision a recording started at time 5
from the concrete camera-and-song state demo2 has already switched to the
music by the time startRecording returns: both switch-log entries carry
time 5, the pre-roll window of the artifact is empty, and the artifact
contains no ambient microphone audio before the music. -/
theorem preroll_switch_counterexample :
    V6.startRecording 5 demo2 = .ok demo3 ∧
    demo3.switchLog = [(5, Source.mic), (5, Source.song)] ∧
    prerollWindow demo3.switchLog = 0 ∧
    demo3.recordingSource = Source.song :=
  ⟨demo3_start, by decide, by decide, by decide⟩

/-- C4: part_002 evaluated at the failing input (capture starts at 0, stop
at 1000 during the 3 s pre-roll, timer due at 3000): the stop leaves the
pre-roll setTimeout armed, the late fire mutates both gains and the
recorded source after the session is Stopped, and once the finalize
callback has torn down the gain nodes the late fire throws a TypeError
instead of being a guarded no-op. -/
theorem late_preroll_timer_not_cancelled :
    p2stopped.isRecording = false ∧
    p2stopped.pendingSwitch = some 0 ∧
    P2.timerFire 3000 p2stopped = .ok p2late ∧
    p2late.isRecording = false ∧
    p2late.microGain = some 0 ∧
    p2late.songGain = some 1 ∧
    p2late.songPlaying = true ∧
    p2late.recordingSource = Source.song ∧
    p2finalized.pendingSwitch = some 0 ∧
    P2.timerFire 3000 p2finalized = .error JsError.typeError :=
  ⟨by decide, by decide, rfl, by decide, by decide, by decide, by decide,
   by decide, by decide, rfl⟩

end Cralk
